import Mathlib

/-!
Verification of the export pipeline of `spotify_exporter.py`.

The worker class in the source file defines each of its export methods twice;
Python keeps the later definition, so the effective methods are the second set
(lines 774-955).  Both sets are embedded here where a claim depends on the
difference: `getPlaylistTracks` models the effective walker (lines 774-834,
no try/except around page fetches) and `getPlaylistTracksV1` models the
shadowed first definition (lines 576-651, which catches page-fetch errors).

Raw API records are duck-typed Python mappings; they are embedded as the
`PyVal` value type with Python truthiness, `dict.get`, membership and
subscript operations, each raising (`Except.error`) exactly where the Python
operation would raise.
-/

set_option maxHeartbeats 1000000
set_option maxRecDepth 4000

namespace SpotifyExporter

/-- Python-like dynamic value: `None`, bool, int, str, list, dict. -/
inductive PyVal where
  | vNone
  | vBool (b : Bool)
  | vInt (n : Int)
  | vStr (s : String)
  | vList (xs : List PyVal)
  | vDict (entries : List (String × PyVal))
deriving Repr

/-- Python truthiness (`bool(v)`): `None`/`False`/`0`/empty containers are falsy. -/
def pyTruthy : PyVal → Bool
  | .vNone => false
  | .vBool b => b
  | .vInt n => n != 0
  | .vStr s => s != ""
  | .vList xs => !xs.isEmpty
  | .vDict es => !es.isEmpty

/-- First-match lookup in a dict's entry list (Python dict keys are unique). -/
def dictLookup (es : List (String × PyVal)) (k : String) : Option PyVal :=
  match es with
  | [] => none
  | (k', v) :: rest => if k' = k then some v else dictLookup rest k

/-- Python `str(v)` as used in f-strings.  Only scalar values are exercised by
the program on this path; container reprs are abbreviated. -/
def pyStr : PyVal → String
  | .vNone => "None"
  | .vBool b => if b then "True" else "False"
  | .vInt n => toString n
  | .vStr s => s
  | .vList _ => "[...]"
  | .vDict _ => "\x7b...\x7d"

/-- Python `v.get(k, default)`: raises `AttributeError` unless `v` is a dict. -/
def pyGetD (v : PyVal) (k : String) (dflt : PyVal) : Except String PyVal :=
  match v with
  | .vDict es => .ok ((dictLookup es k).getD dflt)
  | _ => .error "AttributeError"

/-- Contiguous-sublist test on char lists, for Python `str in str`. -/
def charsInfixOf (p : List Char) : List Char → Bool
  | [] => p.isEmpty
  | c :: rest => p.isPrefixOf (c :: rest) || charsInfixOf p rest

/-- Python `'spotify' in v`: key test on dicts, substring test on strings,
membership on lists, `TypeError` otherwise. -/
def pyHasSpotify : PyVal → Except String Bool
  | .vDict es => .ok (es.any fun e => e.1 = "spotify")
  | .vStr s => .ok (charsInfixOf "spotify".data s.data)
  | .vList xs => .ok (xs.any fun v => match v with | .vStr s => s = "spotify" | _ => false)
  | _ => .error "TypeError"

/-- Python `v['spotify']`: dict subscript; raises on every non-dict value the
program can reach here. -/
def pySubscriptSpotify : PyVal → Except String PyVal
  | .vDict es =>
      match dictLookup es "spotify" with
      | some v => .ok v
      | none => .error "KeyError"
  | _ => .error "TypeError"

/-- Normalized track value as constructed at lines 814-820.  The Python `Track`
dataclass does not validate, so the duck-typed fields stay `PyVal`; `artist`
is always a genuine string because it is produced by `', '.join` or a literal. -/
structure PyTrack where
  name : PyVal
  artist : String
  album : PyVal
  duration_ms : PyVal
  url : PyVal
deriving Repr

/-- Per-artist name extraction inside the list comprehension at line 794:
`artist.get('name', 'Unknown Artist')`; joining raises `TypeError` unless the
extracted value is a string. -/
def artistNameStr (a : PyVal) : Except String String := do
  let n ← pyGetD a "name" (.vStr "Unknown Artist")
  match n with
  | .vStr s => .ok s
  | _ => .error "TypeError"

/-- Name extraction over the artist list, in order, stopping at the first
raising element (as the Python comprehension does). -/
def artistNamesList : List PyVal → Except String (List String)
  | [] => .ok []
  | a :: rest => do
      let n ← artistNameStr a
      let ns ← artistNamesList rest
      .ok (n :: ns)

/-- Lines 793-794: `', '.join([artist.get('name', 'Unknown Artist') for artist
in artists])`.  Iterating a non-list raw value ends in an exception in Python
(either at `.get` or at `join`); the model collapses those to one error. -/
def joinArtistNames : PyVal → Except String String
  | .vList xs => do
      let names ← artistNamesList xs
      .ok (String.intercalate ", " names)
  | _ => .error "TypeError"

/-- Service root URL used as the last-resort track URL (line 811). -/
def rootUrl : String := "https://open.spotify.com"

/-- Canonical track URL built from a recovered id (line 809). -/
def trackUrlOf (tid : PyVal) : String := "https://open.spotify.com/track/" ++ pyStr tid

/-- URL resolution fallback of lines 806-812: canonical URL from a truthy id,
else the service root URL. -/
def fallbackUrl (track : PyVal) : Except String PyVal := do
  let tid ← pyGetD track "id" (.vStr "")
  if pyTruthy tid then .ok (.vStr (trackUrlOf tid)) else .ok (.vStr rootUrl)

/-- Body of the per-record `try` block at lines 789-820 of the effective
`get_playlist_tracks`: field extraction with per-field defaults; any raise is
reported as `Except.error` (caught by the caller, leading to a skip). -/
def normalizeTrackRecord (track : PyVal) : Except String PyTrack := do
  let name ← pyGetD track "name" (.vStr "Unknown Track")
  let artistsV ← pyGetD track "artists" (.vList [])
  let artist ← if pyTruthy artistsV then joinArtistNames artistsV else .ok "Unknown Artist"
  let albumV ← pyGetD track "album" (.vDict [])
  let album ← if pyTruthy albumV then pyGetD albumV "name" (.vStr "Unknown Album")
              else .ok (.vStr "Unknown Album")
  let dur ← pyGetD track "duration_ms" (.vInt 0)
  let extV ← pyGetD track "external_urls" (.vDict [])
  let url ←
    if pyTruthy extV then do
      let has ← pyHasSpotify extV
      if has then pySubscriptSpotify extV else fallbackUrl track
    else fallbackUrl track
  .ok ⟨name, artist, album, dur, url⟩

/-- Line 784: `item.get('track')` — the page items handed over by the API are
dicts; a missing `track` key yields `None`. -/
def itemGetTrack (item : PyVal) : PyVal :=
  match item with
  | .vDict es => (dictLookup es "track").getD .vNone
  | _ => .vNone

/-- Lines 784-827: one loop iteration over a page item.  A falsy track record
(absent, `None`, or an empty mapping) is skipped; an exception inside the
`try` block is caught and the record skipped; otherwise one `Track` is
appended. -/
def processTrackItem (item : PyVal) : Option PyTrack :=
  let track := itemGetTrack item
  if pyTruthy track then (normalizeTrackRecord track).toOption else none

/-- Wraps a raw track record as a page item `{'track': t}`. -/
def mkItem (t : PyVal) : PyVal := .vDict [("track", t)]

/-- One page of the paginated track listing: the `items` array and whether a
`next` cursor is present. -/
structure Page where
  items : List PyVal
  hasNext : Bool

/-- Pagination loop of the effective `get_playlist_tracks` (lines 779-833).
The input list holds the successive fetch outcomes the remote source would
return (first `sp.playlist_tracks`, then one `sp.next` per page).  A raised
fetch (`Except.error`) propagates: the effective definition has no try/except
around page fetches.  The cancellation flag is polled before every item; it is
modelled as constant during one walk.  An exhausted outcome list stands for a
source with no further responses and ends the walk like a missing cursor. -/
def walkPages (cancelled : Bool) : List (Except String Page) → List PyTrack →
    Except String (List PyTrack)
  | [], acc => .ok acc
  | .error e :: _, _ => .error e
  | .ok pg :: rest, acc =>
      if cancelled && !pg.items.isEmpty then .ok acc
      else
        let acc2 := acc ++ pg.items.filterMap processTrackItem
        if pg.hasNext then walkPages cancelled rest acc2 else .ok acc2

/-- Effective `get_playlist_tracks` (lines 774-834): the second definition of
the method, the one Python keeps. -/
def getPlaylistTracks (cancelled : Bool) (fetches : List (Except String Page)) :
    Except String (List PyTrack) :=
  walkPages cancelled fetches []

/-- Pagination loop of the shadowed first `get_playlist_tracks` definition
(lines 576-651): identical normalization, but the initial fetch and every
`sp.next` call sit in a try/except that logs and returns the tracks collected
so far. -/
def walkPagesV1 (cancelled : Bool) : List (Except String Page) → List PyTrack →
    List PyTrack
  | [], acc => acc
  | .error _ :: _, acc => acc
  | .ok pg :: rest, acc =>
      if cancelled && !pg.items.isEmpty then acc
      else
        let acc2 := acc ++ pg.items.filterMap processTrackItem
        if pg.hasNext then walkPagesV1 cancelled rest acc2 else acc2

/-- Shadowed first `get_playlist_tracks` definition (lines 576-651), dead code
at runtime because the second definition overrides it. -/
def getPlaylistTracksV1 (cancelled : Bool) (fetches : List (Except String Page)) :
    List PyTrack :=
  walkPagesV1 cancelled fetches []

/-- Characters removed by the first regex of `sanitize_filename` (line 838). -/
def isForbiddenChar (c : Char) : Bool :=
  c = '<' || c = '>' || c = ':' || c = '"' || c = '/' || c = '\\' ||
  c = '|' || c = '?' || c = '*'

/-- Characters removed by the second regex (line 839), `[\x00-\x1f\x7f-\x9f]`:
exactly the Unicode control characters. -/
def isControlChar (c : Char) : Bool :=
  c.toNat ≤ 0x1f || (0x7f ≤ c.toNat && c.toNat ≤ 0x9f)

/-- Python `str.strip('. ')`: drop leading and trailing periods and spaces. -/
def stripDotSpace (l : List Char) : List Char :=
  ((l.dropWhile fun c => c = '.' || c = ' ').reverse.dropWhile
    fun c => c = '.' || c = ' ').reverse

/-- Characters surviving the two removal regexes of `sanitize_filename`. -/
def sanitizeKept (s : String) : List Char :=
  s.data.filter fun c => !(isForbiddenChar c || isControlChar c)

/-- Effective `sanitize_filename` (lines 836-841): remove forbidden and control
characters, strip `'. '` from both ends, then `filename[:200] if filename else
"playlist"`. -/
def sanitizeFilename (s : String) : String :=
  let stripped := stripDotSpace (sanitizeKept s)
  if stripped = [] then "playlist" else String.mk (stripped.take 200)

/-- The `Playlist` dataclass (lines 107-114). -/
structure PlaylistInfo where
  id : String
  name : String
  track_count : Int
  owner : String
  description : String := ""
deriving Repr, DecidableEq

/-- Shared serializer naming convention: `<sanitized>_<timestamp>.<ext>`
(e.g. line 846). -/
def exportFileName (name ts ext : String) : String :=
  sanitizeFilename name ++ "_" ++ ts ++ "." ++ ext

/-- Full output path `output_dir / filename`. -/
def filePathOf (dir name ts ext : String) : String :=
  dir ++ "/" ++ exportFileName name ts ext

/-- The `"─" * 40` horizontal rule of the Discord header (lines 928, 931). -/
def dashRule : String := String.mk (List.replicate 40 '─')

/-- Discord header block built at lines 928-931 of the effective
`export_to_discord`. -/
def discordHeader (p : PlaylistInfo) (trackCount : Nat) : String :=
  dashRule ++ "\n\n" ++ "##" ++ p.name ++ "\n" ++
  "*By " ++ p.owner ++ " • " ++ toString trackCount ++ " tracks*\n" ++
  dashRule ++ "\n\n"

/-- One numbered track line, `f"{i}. **{track.name}** - {track.artist}\n"`
(line 937); `track.name` goes through `str` like any f-string field. -/
def trackLine (i : Nat) (t : PyTrack) : String :=
  toString i ++ ". **" ++ pyStr t.name ++ "** - " ++ t.artist ++ "\n"

/-- All numbered lines for `enumerate(tracks, 1)`. -/
def trackLines (tracks : List PyTrack) : List String :=
  tracks.enum.map fun it => trackLine (it.1 + 1) it.2

/-- One step of the greedy chunking loop (lines 939-943): flush the buffer when
appending the line would push it over 1800 characters. -/
def chunkStep (acc : List String × String) (line : String) : List String × String :=
  if acc.2.length + line.length > 1800 then (acc.1 ++ [acc.2], line)
  else (acc.1, acc.2 ++ line)

/-- The chunking loop over all lines, returning flushed messages and the final
buffer. -/
def chunkFold (lines : List String) : List String × String :=
  lines.foldl chunkStep ([], "")

/-- Lines 936-946: the messages appended after the header, including the final
non-empty buffer. -/
def contentMessages (lines : List String) : List String :=
  let r := chunkFold lines
  if r.2 = "" then r.1 else r.1 ++ [r.2]

/-- The full message sequence posted by `export_to_discord`: the header (put
into `messages` at line 933) followed by the chunked track lines. -/
def discordMessages (p : PlaylistInfo) (tracks : List PyTrack) : List String :=
  discordHeader p tracks.length :: contentMessages (trackLines tracks)

/-- Webhook endpoint state: the queue of HTTP statuses the endpoint will answer
with (an exhausted queue answers 200) and the log of message bodies posted. -/
structure NetState where
  statuses : List Nat
  posted : List String
deriving Repr, DecidableEq

/-- One `requests.post` call: consumes the next status and logs the body. -/
def doPost (msg : String) (ns : NetState) : Nat × NetState :=
  match ns.statuses with
  | [] => (200, { ns with posted := ns.posted ++ [msg] })
  | s :: rest => (s, { statuses := rest, posted := ns.posted ++ [msg] })

/-- The posting loop of lines 948-953: stop silently when cancelled, raise
`Failed to send to Discord: <status>` on a status other than 200/204. -/
def discordPosts (cancelled : Bool) : List String → NetState → Option String × NetState
  | [], ns => (none, ns)
  | m :: rest, ns =>
      if cancelled then (none, ns)
      else
        let r := doPost m ns
        if r.1 = 200 || r.1 = 204 then discordPosts cancelled rest r.2
        else (some ("Failed to send to Discord: " ++ toString r.1), r.2)

/-- Effective `export_to_discord` (lines 924-955): requires a non-empty webhook
URL (line 925 raises `ValueError`), then posts header and chunks in order.
The first component is the raised exception message, if any. -/
def exportToDiscord (cancelled : Bool) (webhookUrl : String) (p : PlaylistInfo)
    (tracks : List PyTrack) (ns : NetState) : Option String × NetState :=
  if webhookUrl = "" then (some "Discord webhook URL is required", ns)
  else discordPosts cancelled (discordMessages p tracks) ns

/-- The `Track` dataclass (lines 88-104) with its declared field types
(`name/artist/album/url: str`, `duration_ms: int`); used by the serializer
claims, which quantify over normalized tracks. -/
structure Track where
  name : String
  artist : String
  album : String
  duration_ms : Int
  url : String
deriving Repr, DecidableEq

/-- JSON value tree, the image of `json.dump`/`json.load`. -/
inductive JVal where
  | jNull
  | jBool (b : Bool)
  | jNum (n : Int)
  | jStr (s : String)
  | jArr (xs : List JVal)
  | jObj (fields : List (String × JVal))
deriving Repr

/-- First-match lookup among a JSON object's fields. -/
def jLookup (k : String) : List (String × JVal) → Option JVal
  | [] => none
  | (k', v) :: rest => if k' = k then some v else jLookup k rest

/-- `Track.to_dict` (lines 97-104) as a JSON object. -/
def trackToJson (t : Track) : JVal :=
  .jObj [("name", .jStr t.name), ("artist", .jStr t.artist), ("album", .jStr t.album),
         ("duration_ms", .jNum t.duration_ms), ("url", .jStr t.url)]

/-- The document built by the effective `export_to_json` (lines 861-870): the
`playlist` summary reports `len(tracks)` as `track_count` (line 866), not the
playlist's own reported `track_count`. -/
def exportJsonDoc (p : PlaylistInfo) (tracks : List Track) (exportedAt : String) : JVal :=
  .jObj [("playlist", .jObj [("name", .jStr p.name), ("owner", .jStr p.owner),
                             ("description", .jStr p.description),
                             ("track_count", .jNum tracks.length)]),
         ("tracks", .jArr (tracks.map trackToJson)),
         ("exported_at", .jStr exportedAt)]

/-- Reads a string field of a parsed JSON object. -/
def jAsStr : Option JVal → Option String
  | some (.jStr s) => some s
  | _ => none

/-- Reads an integer field of a parsed JSON object. -/
def jAsNum : Option JVal → Option Int
  | some (.jNum n) => some n
  | _ => none

/-- Parses one track object back into a `Track`. -/
def parseTrack (v : JVal) : Option Track :=
  match v with
  | .jObj fs =>
      match jAsStr (jLookup "name" fs), jAsStr (jLookup "artist" fs),
            jAsStr (jLookup "album" fs), jAsNum (jLookup "duration_ms" fs),
            jAsStr (jLookup "url" fs) with
      | some n, some a, some al, some d, some u => some ⟨n, a, al, d, u⟩
      | _, _, _, _, _ => none
  | _ => none

/-- Parses a JSON array elementwise, failing on the first non-track entry. -/
def parseTracksList : List JVal → Option (List Track)
  | [] => some []
  | v :: rest =>
      match parseTrack v, parseTracksList rest with
      | some t, some ts => some (t :: ts)
      | _, _ => none

/-- Parses the `tracks` array of an exported document back into tracks. -/
def parseDocTracks (v : JVal) : Option (List Track) :=
  match v with
  | .jObj fs =>
      match jLookup "tracks" fs with
      | some (.jArr xs) => parseTracksList xs
      | _ => none
  | _ => none

/-- Reads the `playlist.track_count` field of an exported document. -/
def docTrackCount (v : JVal) : Option JVal :=
  match v with
  | .jObj fs =>
      match jLookup "playlist" fs with
      | some (.jObj ps) => jLookup "track_count" ps
      | _ => none
  | _ => none

/-- The `ExportFormat` enum (lines 73-84). -/
inductive Fmt where
  | discord
  | csv
  | json
  | txt
  | md
deriving Repr, DecidableEq

/-- File extension per file format, as used in the serializer filenames. -/
def fmtExt : Fmt → String
  | .discord => ""
  | .csv => "csv"
  | .json => "json"
  | .txt => "txt"
  | .md => "md"

/-- Terminal state of one `ExportWorker.run` execution (lines 534-574).
`completed fs` is the `finished.emit(self.exported_files)` path; `cancelled fs`
is the early `return` at a playlist boundary (line 539-541: no signal is
emitted, the worker object retains `exported_files = fs`); `failed e fs` is the
`except` path emitting `error` with message `e` while `exported_files = fs`. -/
inductive RunOutcome where
  | completed (files : List String)
  | cancelled (files : List String)
  | failed (msg : String) (files : List String)
deriving Repr, DecidableEq

/-- One export run's environment: format, selected playlists each paired with
the page-fetch outcomes its track listing produces, output directory, webhook
URL, the wall-clock timestamp observed while exporting playlist `i`, the
webhook's queued response statuses, and the boundary index from which the
polled cancellation flag reads true (`none` = never set; the flag is modelled
as flipping between playlist boundaries, which covers every run cancelled at a
boundary). -/
structure RunInput where
  fmt : Fmt
  playlists : List (PlaylistInfo × List (Except String Page))
  dir : String
  webhookUrl : String
  tsf : Nat → String
  statuses : List Nat
  cancelFrom : Option Nat

/-- Whether the cancellation flag reads true at the boundary check before
playlist `i`. -/
def cancelledAt (cancelFrom : Option Nat) (i : Nat) : Bool :=
  match cancelFrom with
  | none => false
  | some k => k ≤ i

/-- The orchestration loop of `ExportWorker.run` (lines 538-570): per playlist,
poll cancellation, fetch tracks (an uncaught fetch exception reaches the outer
`except` and fails the run), skip empty listings, then either post to Discord
(an exception likewise fails the run) or write one file and append its path.
Returns the terminal outcome and the list of webhook messages posted. -/
def runGo (fmt : Fmt) (dir webhookUrl : String) (tsf : Nat → String)
    (cancelFrom : Option Nat) :
    Nat → List (PlaylistInfo × List (Except String Page)) → List String → NetState →
    RunOutcome × List String
  | _, [], files, ns => (.completed files, ns.posted)
  | i, (p, fetches) :: rest, files, ns =>
      if cancelledAt cancelFrom i then (.cancelled files, ns.posted)
      else
        match getPlaylistTracks false fetches with
        | .error e => (.failed e files, ns.posted)
        | .ok tracks =>
            if tracks.isEmpty then runGo fmt dir webhookUrl tsf cancelFrom (i + 1) rest files ns
            else
              match fmt with
              | .discord =>
                  match exportToDiscord false webhookUrl p tracks ns with
                  | (some e, ns') => (.failed e files, ns'.posted)
                  | (none, ns') => runGo fmt dir webhookUrl tsf cancelFrom (i + 1) rest files ns'
              | .csv => runGo fmt dir webhookUrl tsf cancelFrom (i + 1) rest
                  (files ++ [filePathOf dir p.name (tsf i) "csv"]) ns
              | .json => runGo fmt dir webhookUrl tsf cancelFrom (i + 1) rest
                  (files ++ [filePathOf dir p.name (tsf i) "json"]) ns
              | .txt => runGo fmt dir webhookUrl tsf cancelFrom (i + 1) rest
                  (files ++ [filePathOf dir p.name (tsf i) "txt"]) ns
              | .md => runGo fmt dir webhookUrl tsf cancelFrom (i + 1) rest
                  (files ++ [filePathOf dir p.name (tsf i) "md"]) ns

/-- One whole `ExportWorker.run` execution from a fresh worker
(`exported_files = []`, nothing posted yet). -/
def runWorker (inp : RunInput) : RunOutcome × List String :=
  runGo inp.fmt inp.dir inp.webhookUrl inp.tsf inp.cancelFrom 0 inp.playlists []
    ⟨inp.statuses, []⟩

/-- Concatenation of a list of strings, for stating chunking round-trips. -/
def concatS : List String → String
  | [] => ""
  | x :: xs => x ++ concatS xs

section Helpers

@[simp] theorem exceptBind_ok {ε α β : Type} (a : α) (f : α → Except ε β) :
    (Except.ok a >>= f) = f a := rfl

@[simp] theorem exceptBind_error {ε α β : Type} (e : ε) (f : α → Except ε β) :
    ((Except.error e : Except ε α) >>= f) = Except.error e := rfl

@[simp] theorem exceptToOption_ok {ε α : Type} (a : α) :
    (Except.ok a : Except ε α).toOption = some a := rfl

@[simp] theorem exceptToOption_error {ε α : Type} (e : ε) :
    (Except.error e : Except ε α).toOption = none := rfl

theorem mem_stripDotSpace {c : Char} {l : List Char} (h : c ∈ stripDotSpace l) :
    c ∈ l := by
  unfold stripDotSpace at h
  rw [List.mem_reverse] at h
  have h2 := (List.dropWhile_sublist _).subset h
  rw [List.mem_reverse] at h2
  exact (List.dropWhile_sublist _).subset h2

theorem mem_sanitizeKept {c : Char} {s : String} (h : c ∈ sanitizeKept s) :
    isForbiddenChar c = false ∧ isControlChar c = false := by
  unfold sanitizeKept at h
  have := (List.mem_filter.mp h).2
  simp only [Bool.not_eq_true', Bool.or_eq_false_iff] at this
  exact this

theorem concatS_append (a b : List String) :
    concatS (a ++ b) = concatS a ++ concatS b := by
  induction a with
  | nil => simp [concatS]
  | cons x xs ih => simp [concatS, ih, String.append_assoc]

@[simp] theorem concatS_nil : concatS [] = "" := rfl

theorem length_concatS (l : List String) :
    (concatS l).length = (l.map String.length).sum := by
  induction l with
  | nil => rfl
  | cons x xs ih => simp [concatS, String.length_append, ih]

end Helpers

/-- CLAIM C5 (counterexample): the input `"playlist"` already sanitizes to the
literal `"playlist"` although its stripped character list is non-empty, so the
sanitizer does not return `"playlist"` *exactly* when the stripped result is
empty — the implication only holds in one direction. -/
theorem sanitize_playlist_not_iff :
    sanitizeFilename "playlist" = "playlist" ∧
    stripDotSpace (sanitizeKept "playlist") ≠ [] := by
  constructor
  · decide
  · decide

/-- CLAIM C5 (amended): for every input string, the sanitizer's output contains
none of the forbidden characters `< > : " / \ | ? *` and no control character,
has length at most 200, and is the literal `"playlist"` whenever the stripped
result is empty (the converse direction does not hold: an input may sanitize
to `"playlist"` on its own). -/
theorem sanitizeFilename_contract (s : String) :
    (∀ c ∈ (sanitizeFilename s).data,
      isForbiddenChar c = false ∧ isControlChar c = false) ∧
    (sanitizeFilename s).length ≤ 200 ∧
    (stripDotSpace (sanitizeKept s) = [] → sanitizeFilename s = "playlist") := by
  unfold sanitizeFilename
  by_cases h : stripDotSpace (sanitizeKept s) = []
  · rw [if_pos h]
    refine ⟨?_, by decide, fun _ => rfl⟩
    intro c hc
    fin_cases hc <;> decide
  · rw [if_neg h]
    refine ⟨?_, ?_, fun h' => absurd h' h⟩
    · intro c hc
      have hc' : c ∈ stripDotSpace (sanitizeKept s) :=
        List.take_subset _ _ hc
      exact mem_sanitizeKept (mem_stripDotSpace hc')
    · show (String.mk _).length ≤ 200
      simp [String.length]

/-- CLAIM C5 (witness): an all-forbidden-character input sanitizes to
`"playlist"`, of length at most 200. -/
theorem sanitizeFilename_contract_witness :
    sanitizeFilename "<>:\"/\\|?*" = "playlist" ∧
    (sanitizeFilename "<>:\"/\\|?*").length ≤ 200 :=
  ⟨(sanitizeFilename_contract "<>:\"/\\|?*").2.2 (by decide),
   (sanitizeFilename_contract "<>:\"/\\|?*").2.1⟩

section JsonRoundTrip

theorem parseTrack_trackToJson (t : Track) : parseTrack (trackToJson t) = some t := rfl

theorem parseTracksList_map (l : List Track) :
    parseTracksList (l.map trackToJson) = some l := by
  induction l with
  | nil => rfl
  | cons t ts ih => simp [parseTracksList, parseTrack_trackToJson, ih]

end JsonRoundTrip

/-- CLAIM C6 (confirmed): parsing the structured document built by
`export_to_json` recovers the track list itself — same length, same
`(name, artist, album, duration_ms, url)` tuples, same order — and the
`playlist.track_count` field of the summary is the number of tracks actually
fetched (`len(tracks)`), regardless of the playlist's reported
`track_count`. -/
theorem exportJson_roundtrip (p : PlaylistInfo) (tracks : List Track)
    (exportedAt : String) :
    parseDocTracks (exportJsonDoc p tracks exportedAt) = some tracks ∧
    docTrackCount (exportJsonDoc p tracks exportedAt) =
      some (.jNum (tracks.length : Int)) := by
  constructor
  · simp [parseDocTracks, exportJsonDoc, jLookup, parseTracksList_map]
  · simp [docTrackCount, exportJsonDoc, jLookup]

/-- CLAIM C7 (counterexample): two distinct playlists (different ids) that
share the display name `"Mix"`, exported by one CSV run within the same
second, produce the *same* file name — the naming convention does not
guarantee the absence of in-run collisions. -/
theorem filename_collision_in_run :
    (runWorker
      ⟨.csv,
       [(⟨"id1", "Mix", 1, "o", ""⟩,
         [.ok ⟨[mkItem (.vDict [("name", .vStr "S")])], false⟩]),
        (⟨"id2", "Mix", 1, "o2", ""⟩,
         [.ok ⟨[mkItem (.vDict [("name", .vStr "S2")])], false⟩])],
       "out", "", fun _ => "20240101_000000", [], none⟩).1 =
      .completed ["out/Mix_20240101_000000.csv", "out/Mix_20240101_000000.csv"] ∧
    ("id1" : String) ≠ "id2" := by
  constructor
  · rfl
  · decide

/-- CLAIM C7 (amended): with equal-length timestamps (the format is always
`YYYYMMDD_HHMMSS`), two generated file names coincide exactly when the
sanitized playlist names and the timestamps both coincide; distinct sanitized
names (or distinct timestamps) guarantee distinct names, but distinct
playlists sharing a sanitized name exported in the same second collide, even
within one run. -/
theorem exportFileName_collision_iff (n1 n2 ts1 ts2 ext : String)
    (hlen : ts1.length = ts2.length) :
    exportFileName n1 ts1 ext = exportFileName n2 ts2 ext ↔
      sanitizeFilename n1 = sanitizeFilename n2 ∧ ts1 = ts2 := by
  constructor
  · intro h
    unfold exportFileName at h
    have hd : (sanitizeFilename n1).data ++ "_".data ++ ts1.data ++
        (".".data ++ ext.data) = (sanitizeFilename n2).data ++ "_".data ++
        ts2.data ++ (".".data ++ ext.data) := by
      have := congrArg String.data h
      simpa [String.data_append, List.append_assoc] using this
    have h1 : (sanitizeFilename n1).data ++ "_".data ++ ts1.data =
        (sanitizeFilename n2).data ++ "_".data ++ ts2.data :=
      List.append_cancel_right hd
    have hts : ts1.data.length = ts2.data.length := hlen
    have h2 := List.append_inj' h1 hts
    refine ⟨?_, ?_⟩
    · have h3 : (sanitizeFilename n1).data = (sanitizeFilename n2).data :=
        List.append_cancel_right h2.1
      apply String.ext
      exact h3
    · apply String.ext
      exact h2.2
  · rintro ⟨h1, h2⟩
    unfold exportFileName
    rw [h1, h2]

/-- CLAIM C7 (witness): two playlists whose sanitized names differ cannot
collide in the same second. -/
theorem exportFileName_collision_iff_witness :
    exportFileName "Road Trip" "20240101_000000" "csv" ≠
      exportFileName "Chill" "20240101_000000" "csv" := by
  intro h
  have := (exportFileName_collision_iff "Road Trip" "Chill"
    "20240101_000000" "20240101_000000" "csv" rfl).mp h
  exact absurd this.1 (by decide)

/-- A two-page listing whose second page fetch raises. -/
def c1Fetches : List (Except String Page) :=
  [.ok ⟨[mkItem (.vDict [("name", .vStr "T1")])], true⟩, .error "boom"]

/-- The one track the first page yields. -/
def c1Track : PyTrack :=
  ⟨.vStr "T1", "Unknown Artist", .vStr "Unknown Album", .vInt 0, .vStr rootUrl⟩

/-- CLAIM C1 (code bug, evaluated at the failing input): on a playlist whose
second page fetch raises, the effective `get_playlist_tracks` (second,
shadowing definition, no try/except around page fetches) propagates the
exception — the already-fetched track is lost and `run()`'s outer handler
turns the whole run into a Failed outcome, abandoning every remaining
playlist.  The shadowed first definition (dead code) shows the intended,
spec-documented behaviour: it catches the failure and returns the partial
track list. -/
theorem page_fetch_failure_aborts_run :
    getPlaylistTracks false c1Fetches = .error "boom" ∧
    getPlaylistTracksV1 false c1Fetches = [c1Track] ∧
    (runWorker ⟨.csv, [(⟨"id1", "P1", 150, "o", ""⟩, c1Fetches)],
      "out", "", fun _ => "20240101_000000", [], none⟩).1 = .failed "boom" [] :=
  ⟨rfl, rfl, rfl⟩

/-- Entry list for one optional dict field. -/
def optEntry (k : String) (v : Option PyVal) : List (String × PyVal) :=
  match v with
  | none => []
  | some x => [(k, x)]

/-- Artist record with an optional `name` field. -/
def mkArtist (o : Option String) : PyVal :=
  .vDict (optEntry "name" (o.map .vStr))

/-- Entries of a raw track record in which each of the six fields consulted by
normalization is independently absent or present with a well-typed value. -/
def rawEntries (n : Option String) (a : Option (List (Option String)))
    (al : Option String) (d : Option Int) (e : Option String) (i : Option String) :
    List (String × PyVal) :=
  optEntry "name" (n.map .vStr) ++
  (optEntry "artists" (a.map fun l => .vList (l.map mkArtist)) ++
  (optEntry "album" (al.map fun s => .vDict [("name", .vStr s)]) ++
  (optEntry "duration_ms" (d.map .vInt) ++
  (optEntry "external_urls" (e.map fun u => .vDict [("spotify", .vStr u)]) ++
  optEntry "id" (i.map .vStr)))))

/-- Raw track record with the given subset of fields present. -/
def mkRawTrack (n : Option String) (a : Option (List (Option String)))
    (al : Option String) (d : Option Int) (e : Option String) (i : Option String) :
    PyVal :=
  .vDict (rawEntries n a al d e i)

/-- Documented default for the track name. -/
def defaultName (n : Option String) : PyVal := .vStr (n.getD "Unknown Track")

/-- Documented default for the artist string: comma-joined per-entry-defaulted
names when the artist list is present and non-empty, else the placeholder. -/
def defaultArtist : Option (List (Option String)) → String
  | some (o :: rest) =>
      String.intercalate ", " ((o :: rest).map fun x => x.getD "Unknown Artist")
  | _ => "Unknown Artist"

/-- Documented default for the album name. -/
def defaultAlbum (al : Option String) : PyVal := .vStr (al.getD "Unknown Album")

/-- Documented default for the duration. -/
def defaultDuration (d : Option Int) : PyVal := .vInt (d.getD 0)

/-- Documented URL preference order: external spotify URL, else canonical URL
from a non-empty id, else the service root. -/
def defaultUrl : Option String → Option String → PyVal
  | some u, _ => .vStr u
  | none, some tid =>
      if tid != "" then .vStr ("https://open.spotify.com/track/" ++ tid)
      else .vStr rootUrl
  | none, none => .vStr rootUrl

section NormalizationLemmas

theorem dictLookup_optEntry_self (k : String) (v : Option PyVal)
    (rest : List (String × PyVal)) :
    dictLookup (optEntry k v ++ rest) k =
      match v with
      | some x => some x
      | none => dictLookup rest k := by
  cases v <;> simp [optEntry, dictLookup]

theorem dictLookup_optEntry_other {k k' : String} (v : Option PyVal)
    (rest : List (String × PyVal)) (h : k' ≠ k) :
    dictLookup (optEntry k' v ++ rest) k = dictLookup rest k := by
  cases v <;> simp [optEntry, dictLookup, h]

theorem dictLookup_optEntry_self_nil (k : String) (v : Option PyVal) :
    dictLookup (optEntry k v) k =
      match v with
      | some x => some x
      | none => none := by
  cases v <;> simp [optEntry, dictLookup]

theorem dictLookup_optEntry_other_nil {k k' : String} (v : Option PyVal)
    (h : k' ≠ k) :
    dictLookup (optEntry k' v) k = none := by
  cases v <;> simp [optEntry, dictLookup, h]

theorem rawLookup_name (n : Option String) (a : Option (List (Option String)))
    (al : Option String) (d : Option Int) (e : Option String) (i : Option String) :
    dictLookup (rawEntries n a al d e i) "name" = n.map .vStr := by
  cases n <;>
    simp [rawEntries, dictLookup_optEntry_self, dictLookup_optEntry_other,
      dictLookup_optEntry_self_nil, dictLookup_optEntry_other_nil]

theorem rawLookup_artists (n : Option String) (a : Option (List (Option String)))
    (al : Option String) (d : Option Int) (e : Option String) (i : Option String) :
    dictLookup (rawEntries n a al d e i) "artists" =
      a.map fun l => .vList (l.map mkArtist) := by
  cases a <;>
    simp [rawEntries, dictLookup_optEntry_self, dictLookup_optEntry_other,
      dictLookup_optEntry_self_nil, dictLookup_optEntry_other_nil]

theorem rawLookup_album (n : Option String) (a : Option (List (Option String)))
    (al : Option String) (d : Option Int) (e : Option String) (i : Option String) :
    dictLookup (rawEntries n a al d e i) "album" =
      al.map fun s => .vDict [("name", .vStr s)] := by
  cases al <;>
    simp [rawEntries, dictLookup_optEntry_self, dictLookup_optEntry_other,
      dictLookup_optEntry_self_nil, dictLookup_optEntry_other_nil]

theorem rawLookup_duration (n : Option String) (a : Option (List (Option String)))
    (al : Option String) (d : Option Int) (e : Option String) (i : Option String) :
    dictLookup (rawEntries n a al d e i) "duration_ms" = d.map .vInt := by
  cases d <;>
    simp [rawEntries, dictLookup_optEntry_self, dictLookup_optEntry_other,
      dictLookup_optEntry_self_nil, dictLookup_optEntry_other_nil]

theorem rawLookup_ext (n : Option String) (a : Option (List (Option String)))
    (al : Option String) (d : Option Int) (e : Option String) (i : Option String) :
    dictLookup (rawEntries n a al d e i) "external_urls" =
      e.map fun u => .vDict [("spotify", .vStr u)] := by
  cases e <;>
    simp [rawEntries, dictLookup_optEntry_self, dictLookup_optEntry_other,
      dictLookup_optEntry_self_nil, dictLookup_optEntry_other_nil]

theorem rawLookup_id (n : Option String) (a : Option (List (Option String)))
    (al : Option String) (d : Option Int) (e : Option String) (i : Option String) :
    dictLookup (rawEntries n a al d e i) "id" = i.map .vStr := by
  cases i <;>
    simp [rawEntries, dictLookup_optEntry_self, dictLookup_optEntry_other,
      dictLookup_optEntry_self_nil, dictLookup_optEntry_other_nil]

theorem artistNameStr_mkArtist (o : Option String) :
    artistNameStr (mkArtist o) = .ok (o.getD "Unknown Artist") := by
  cases o <;> rfl

theorem artistNamesList_map (l : List (Option String)) :
    artistNamesList (l.map mkArtist) =
      .ok (l.map fun x => x.getD "Unknown Artist") := by
  induction l with
  | nil => rfl
  | cons o rest ih => simp [artistNamesList, artistNameStr_mkArtist, ih]

theorem map_vStr_getD (n : Option String) (s : String) :
    (n.map PyVal.vStr).getD (.vStr s) = .vStr (n.getD s) := by
  cases n <;> rfl

theorem map_vInt_getD (d : Option Int) (x : Int) :
    (d.map PyVal.vInt).getD (.vInt x) = .vInt (d.getD x) := by
  cases d <;> rfl

theorem fallbackUrl_rawEntries (n : Option String) (a : Option (List (Option String)))
    (al : Option String) (d : Option Int) (e : Option String) (i : Option String) :
    fallbackUrl (.vDict (rawEntries n a al d e i)) = .ok (defaultUrl none i) := by
  unfold fallbackUrl
  simp only [pyGetD, rawLookup_id, exceptBind_ok]
  cases i with
  | none => simp [pyTruthy, defaultUrl]
  | some tid =>
      by_cases h : tid = "" <;>
        simp [pyTruthy, defaultUrl, h, trackUrlOf, pyStr]

end NormalizationLemmas

/-- Normalization of a record in which each consulted field is independently
absent or present with a well-typed value: no step raises and the documented
defaults are produced.  This is the workhorse behind the C2 and C9
theorems. -/
theorem normalize_mkRawTrack (n : Option String) (a : Option (List (Option String)))
    (al : Option String) (d : Option Int) (e : Option String) (i : Option String) :
    normalizeTrackRecord (mkRawTrack n a al d e i) =
      .ok ⟨defaultName n, defaultArtist a, defaultAlbum al, defaultDuration d,
           defaultUrl e i⟩ := by
  unfold normalizeTrackRecord
  simp only [mkRawTrack, pyGetD, rawLookup_name, rawLookup_artists, rawLookup_album,
    rawLookup_duration, rawLookup_ext, exceptBind_ok, map_vStr_getD, map_vInt_getD]
  cases a with
  | none =>
      cases al <;> cases e <;>
        simp [pyTruthy, joinArtistNames, artistNamesList, fallbackUrl_rawEntries,
          pyGetD, pyHasSpotify, pySubscriptSpotify, dictLookup, defaultName,
          defaultArtist, defaultAlbum, defaultDuration, defaultUrl]
  | some l =>
      cases l with
      | nil =>
          cases al <;> cases e <;>
            simp [pyTruthy, joinArtistNames, artistNamesList, fallbackUrl_rawEntries,
              pyGetD, pyHasSpotify, pySubscriptSpotify, dictLookup, defaultName,
              defaultArtist, defaultAlbum, defaultDuration, defaultUrl]
      | cons o rest =>
          cases al <;> cases e <;>
            simp [pyTruthy, joinArtistNames, artistNamesList, artistNameStr_mkArtist,
              artistNamesList_map, fallbackUrl_rawEntries, pyGetD, pyHasSpotify,
              pySubscriptSpotify, dictLookup, defaultName, defaultArtist,
              defaultAlbum, defaultDuration, defaultUrl]

/-- Processing a page item holding a truthy well-typed-optional record yields
exactly one normalized track with the documented defaults. -/
theorem processTrackItem_mkRawTrack (n : Option String)
    (a : Option (List (Option String))) (al : Option String) (d : Option Int)
    (e : Option String) (i : Option String)
    (h : pyTruthy (mkRawTrack n a al d e i) = true) :
    processTrackItem (mkItem (mkRawTrack n a al d e i)) =
      some ⟨defaultName n, defaultArtist a, defaultAlbum al, defaultDuration d,
            defaultUrl e i⟩ := by
  have hnorm := normalize_mkRawTrack n a al d e i
  simp [processTrackItem, itemGetTrack, mkItem, dictLookup, h, hnorm]

/-- CLAIM C2 (counterexample): the record missing *all* six fields is the empty
mapping — present and non-null, yet Python-falsy — so the `if not track:`
guard at line 785 skips it and no Track is produced, contradicting the claim
that every present record missing any subset of the fields yields exactly one
Track. -/
theorem normalization_empty_record_skipped :
    processTrackItem (mkItem (mkRawTrack none none none none none none)) = none ∧
    mkRawTrack none none none none none none = .vDict [] := ⟨rfl, rfl⟩

/-- CLAIM C2 (amended): for every raw track record that is present and truthy
(a non-empty mapping), with each of
name/artists/album/duration_ms/external_urls/id independently absent or
present with a well-typed value, normalization never raises and produces
exactly one Track whose five fields are all populated: name defaults to
"Unknown Track", artist to "Unknown Artist" (comma-joined per-entry-defaulted
names when the artist list is non-empty), album to "Unknown Album", duration
to 0, and the url is the external spotify URL if present, else the canonical
URL built from the id when the id is present and non-empty, else the service
root URL.  (The record missing all fields is the empty mapping, which is falsy
and skipped; an empty-string id likewise falls back to the root URL.) -/
theorem normalization_defaults (n : Option String)
    (a : Option (List (Option String))) (al : Option String) (d : Option Int)
    (e : Option String) (i : Option String)
    (h : pyTruthy (mkRawTrack n a al d e i) = true) :
    processTrackItem (mkItem (mkRawTrack n a al d e i)) =
      some ⟨defaultName n, defaultArtist a, defaultAlbum al, defaultDuration d,
            defaultUrl e i⟩ :=
  processTrackItem_mkRawTrack n a al d e i h

/-- CLAIM C2 (witness): a record carrying only a name normalizes to a Track
whose other four fields take the documented defaults. -/
theorem normalization_defaults_witness :
    processTrackItem (mkItem (mkRawTrack (some "Dust") none none none none none)) =
      some ⟨.vStr "Dust", "Unknown Artist", .vStr "Unknown Album", .vInt 0,
            .vStr rootUrl⟩ :=
  normalization_defaults (some "Dust") none none none none none (by decide)

/-- CLAIM C9 (counterexample): a present, truthy record whose id is missing
(and with no external URL) does *not* yield a skip — normalization produces a
Track whose url is the service root URL, contradicting the claim that a
present record with a non-recoverable ID yields no Track. -/
theorem unrecoverable_id_still_yields_track :
    processTrackItem (mkItem (mkRawTrack (some "Song") none none none none none)) =
      some ⟨.vStr "Song", "Unknown Artist", .vStr "Unknown Album", .vInt 0,
            .vStr "https://open.spotify.com"⟩ := rfl

/-- CLAIM C9 (amended): per page item, processing produces exactly one Track or
skips, and it skips precisely when the record is absent/falsy (null or the
empty mapping) or the normalization steps raise on malformed structure; a
present record whose ID cannot be recovered is *not* skipped — it yields a
Track whose url falls back to the service root URL. -/
theorem normalization_skip_condition :
    (∀ t, processTrackItem (mkItem t) = none ↔
      (pyTruthy t = false ∨ ∃ err, normalizeTrackRecord t = .error err)) ∧
    (∀ (n : Option String) (a : Option (List (Option String))) (al : Option String)
       (d : Option Int),
      pyTruthy (mkRawTrack n a al d none none) = true →
      (processTrackItem (mkItem (mkRawTrack n a al d none none))).map PyTrack.url =
        some (.vStr rootUrl)) := by
  constructor
  · intro t
    unfold processTrackItem
    rw [show itemGetTrack (mkItem t) = t from rfl]
    cases htr : pyTruthy t with
    | false => simp [htr]
    | true =>
        cases hnorm : normalizeTrackRecord t with
        | ok tr => simp [htr, hnorm]
        | error err => simp [htr, hnorm]
  · intro n a al d h
    rw [processTrackItem_mkRawTrack n a al d none none h]
    rfl

/-- CLAIM C9 (witness): the missing-record item is skipped, and a concrete
truthy record without external URL or id yields a Track with the root URL. -/
theorem normalization_skip_condition_witness :
    processTrackItem (mkItem .vNone) = none ∧
    (processTrackItem (mkItem (mkRawTrack none none none (some 200) none none))).map
        PyTrack.url = some (.vStr rootUrl) :=
  ⟨(normalization_skip_condition.1 .vNone).mpr (Or.inl rfl),
   normalization_skip_condition.2 none none none (some 200) (by decide)⟩

section Chunking

theorem ne_empty_of_length_pos {s : String} (h : 0 < s.length) : s ≠ "" := by
  intro he
  subst he
  exact absurd h (by decide)

theorem trackLine_length_lower (i : Nat) (t : PyTrack) :
    4 ≤ (trackLine i t).length := by
  unfold trackLine
  simp only [String.length_append]
  have : (". **" : String).length = 4 := rfl
  omega

theorem trackLine_ne_empty (i : Nat) (t : PyTrack) : trackLine i t ≠ "" :=
  ne_empty_of_length_pos (lt_of_lt_of_le (by norm_num) (trackLine_length_lower i t))

theorem chunkFold_invariant (lines : List String) (msgs : List String) (cur : String)
    (hlines : ∀ l ∈ lines, l.length ≤ 1800 ∧ l ≠ "")
    (hmsgs : ∀ m ∈ msgs, m.length ≤ 1800 ∧ m ≠ "")
    (hcur : cur.length ≤ 1800) :
    (∀ m ∈ (lines.foldl chunkStep (msgs, cur)).1, m.length ≤ 1800 ∧ m ≠ "") ∧
    (lines.foldl chunkStep (msgs, cur)).2.length ≤ 1800 ∧
    concatS (lines.foldl chunkStep (msgs, cur)).1 ++
        (lines.foldl chunkStep (msgs, cur)).2 =
      concatS msgs ++ (cur ++ concatS lines) := by
  induction lines generalizing msgs cur with
  | nil =>
      refine ⟨hmsgs, hcur, ?_⟩
      simp [concatS, String.append_empty]
  | cons l ls ih =>
      have hl := hlines l (List.mem_cons_self l ls)
      have hls : ∀ x ∈ ls, x.length ≤ 1800 ∧ x ≠ "" := fun x hx =>
        hlines x (List.mem_cons_of_mem l hx)
      rw [List.foldl_cons]
      by_cases hc : cur.length + l.length > 1800
      · rw [show chunkStep (msgs, cur) l = (msgs ++ [cur], l) by simp [chunkStep, hc]]
        have hcurne : cur ≠ "" := by
          apply ne_empty_of_length_pos
          omega
        have hmsgs' : ∀ m ∈ msgs ++ [cur], m.length ≤ 1800 ∧ m ≠ "" := by
          intro m hm
          rcases List.mem_append.mp hm with h1 | h2
          · exact hmsgs m h1
          · rcases List.mem_singleton.mp h2 with rfl
            exact ⟨hcur, hcurne⟩
        obtain ⟨g1, g2, g3⟩ := ih (msgs ++ [cur]) l hls hmsgs' hl.1
        refine ⟨g1, g2, ?_⟩
        rw [g3, concatS_append]
        simp [concatS, String.append_empty, String.append_assoc]
      · rw [show chunkStep (msgs, cur) l = (msgs, cur ++ l) by simp [chunkStep, hc]]
        have hlen : (cur ++ l).length ≤ 1800 := by
          rw [String.length_append]
          omega
        obtain ⟨g1, g2, g3⟩ := ih msgs (cur ++ l) hls hmsgs hlen
        refine ⟨g1, g2, ?_⟩
        rw [g3]
        simp [concatS, String.append_assoc]

theorem contentMessages_spec (lines : List String)
    (hlines : ∀ l ∈ lines, l.length ≤ 1800 ∧ l ≠ "") :
    (∀ m ∈ contentMessages lines, m.length ≤ 1800 ∧ m ≠ "") ∧
    concatS (contentMessages lines) = concatS lines := by
  obtain ⟨g1, g2, g3⟩ := chunkFold_invariant lines [] "" hlines (by simp) (by decide)
  rw [show concatS [] ++ ("" ++ concatS lines) = concatS lines by
    simp [concatS, String.empty_append]] at g3
  unfold contentMessages chunkFold
  by_cases hz : (lines.foldl chunkStep ([], "")).2 = ""
  · rw [if_pos hz]
    refine ⟨g1, ?_⟩
    rw [hz, String.append_empty] at g3
    exact g3
  · rw [if_neg hz]
    constructor
    · intro m hm
      rcases List.mem_append.mp hm with h1 | h2
      · exact g1 m h1
      · rcases List.mem_singleton.mp h2 with rfl
        exact ⟨g2, hz⟩
    · rw [concatS_append]
      simpa [concatS, String.append_empty] using g3

end Chunking

/-- Name of 1800 characters, long enough that its numbered line alone exceeds
the message budget. -/
def overName : String := String.mk (List.replicate 1800 'a')

/-- A track whose Discord line is 1812 characters long. -/
def overTrack : PyTrack := ⟨.vStr overName, "B", .vStr "Al", .vInt 0, .vStr "u"⟩

/-- A track whose Discord line is 912 characters long. -/
def busyTrack : PyTrack :=
  ⟨.vStr (String.mk (List.replicate 900 'b')), "A", .vStr "x", .vInt 0, .vStr "u"⟩

theorem trackLine_length (i : Nat) (t : PyTrack) :
    (trackLine i t).length =
      (toString i).length + 4 + (pyStr t.name).length + 5 + t.artist.length + 1 := by
  simp only [trackLine, String.length_append]
  have h4 : (". **" : String).length = 4 := rfl
  have h5 : ("** - " : String).length = 5 := rfl
  have h1 : ("\n" : String).length = 1 := rfl
  omega

theorem overLine_length : (trackLine 1 overTrack).length = 1812 := by
  rw [trackLine_length]
  rw [show pyStr overTrack.name = String.mk (List.replicate 1800 'a') from rfl]
  rw [show (String.mk (List.replicate 1800 'a')).length =
    (List.replicate 1800 'a').length from rfl, List.length_replicate]
  rfl

theorem busyLine_length_one : (trackLine 1 busyTrack).length = 912 := by
  rw [trackLine_length]
  rw [show pyStr busyTrack.name = String.mk (List.replicate 900 'b') from rfl]
  rw [show (String.mk (List.replicate 900 'b')).length =
    (List.replicate 900 'b').length from rfl, List.length_replicate]
  rfl

theorem busyLine_length_two : (trackLine 2 busyTrack).length = 912 := by
  rw [trackLine_length]
  rw [show pyStr busyTrack.name = String.mk (List.replicate 900 'b') from rfl]
  rw [show (String.mk (List.replicate 900 'b')).length =
    (List.replicate 900 'b').length from rfl, List.length_replicate]
  rfl

/-- CLAIM C3 (counterexample): a single track whose line exceeds the
1800-character budget on its own.  The chunker first flushes the *empty*
buffer as a spurious empty message and then emits the over-long line as one
message longer than 1800 characters — the claim that every produced message is
at most 1800 characters fails. -/
theorem chunk_overlong_line_exceeds_budget :
    1800 < ((discordMessages ⟨"id", "P", 1, "o", ""⟩ [overTrack]).getD 2 "").length ∧
    (discordMessages ⟨"id", "P", 1, "o", ""⟩ [overTrack]).getD 1 "x" = "" := by
  have hne : trackLine 1 overTrack ≠ "" := trackLine_ne_empty 1 overTrack
  have hstep : chunkStep ([], "") (trackLine 1 overTrack) =
      ([""], trackLine 1 overTrack) := by
    simp [chunkStep, overLine_length]
  have hcm : contentMessages [trackLine 1 overTrack] =
      ["", trackLine 1 overTrack] := by
    unfold contentMessages chunkFold
    rw [List.foldl_cons, hstep, List.foldl_nil]
    simp [hne]
  have hmsgs : discordMessages ⟨"id", "P", 1, "o", ""⟩ [overTrack] =
      [discordHeader ⟨"id", "P", 1, "o", ""⟩ 1, "", trackLine 1 overTrack] := by
    unfold discordMessages
    rw [show trackLines [overTrack] = [trackLine 1 overTrack] from rfl, hcm]
    rfl
  constructor
  · rw [hmsgs]
    show 1800 < (trackLine 1 overTrack).length
    rw [overLine_length]
    norm_num
  · rw [hmsgs]
    rfl

/-- CLAIM C3 (amended): for every playlist and track list in which each
numbered line fits the 1800-character budget and whose concatenated lines
exceed one budget, the relay produces the header message followed by more than
one content message, each content message non-empty and at most 1800
characters, and concatenating the content messages in order reconstructs the
concatenation of all numbered track lines — nothing lost, duplicated or
reordered.  (Without the per-line bound the budget claim fails: a single line
longer than 1800 characters is emitted as an over-budget message.) -/
theorem discord_chunking (p : PlaylistInfo) (tracks : List PyTrack)
    (hline : ∀ l ∈ trackLines tracks, l.length ≤ 1800)
    (hbig : 1800 < (concatS (trackLines tracks)).length) :
    discordMessages p tracks =
      discordHeader p tracks.length :: contentMessages (trackLines tracks) ∧
    2 ≤ (contentMessages (trackLines tracks)).length ∧
    (∀ m ∈ contentMessages (trackLines tracks), m.length ≤ 1800 ∧ m ≠ "") ∧
    concatS (contentMessages (trackLines tracks)) = concatS (trackLines tracks) := by
  have hne : ∀ l ∈ trackLines tracks, l.length ≤ 1800 ∧ l ≠ "" := by
    intro l hl
    refine ⟨hline l hl, ?_⟩
    unfold trackLines at hl
    obtain ⟨it, _, rfl⟩ := List.mem_map.mp hl
    exact trackLine_ne_empty _ _
  obtain ⟨g1, g2⟩ := contentMessages_spec (trackLines tracks) hne
  refine ⟨rfl, ?_, g1, g2⟩
  match hcm : contentMessages (trackLines tracks) with
  | [] =>
      rw [hcm] at g2
      rw [← g2] at hbig
      exact absurd hbig (by decide)
  | [m] =>
      rw [hcm] at g2 g1
      have hm := (g1 m (List.mem_singleton_self m)).1
      rw [← g2] at hbig
      simp only [concatS, String.append_empty] at hbig
      omega
  | a :: b :: rest => simp

/-- CLAIM C3 (witness): two 912-character lines (total 1824 > 1800) are split
into more than one content message whose in-order concatenation is the full
line list. -/
theorem discord_chunking_witness :
    2 ≤ (contentMessages (trackLines [busyTrack, busyTrack])).length ∧
    concatS (contentMessages (trackLines [busyTrack, busyTrack])) =
      concatS (trackLines [busyTrack, busyTrack]) := by
  have hl : trackLines [busyTrack, busyTrack] =
      [trackLine 1 busyTrack, trackLine 2 busyTrack] := rfl
  have h := discord_chunking ⟨"id", "P", 2, "o", ""⟩ [busyTrack, busyTrack]
    (by
      rw [hl]
      intro l hm
      rcases List.mem_cons.mp hm with rfl | hm2
      · rw [busyLine_length_one]; norm_num
      · rcases List.mem_singleton.mp hm2 with rfl
        rw [busyLine_length_two]; norm_num)
    (by
      rw [hl, length_concatS]
      simp [busyLine_length_one, busyLine_length_two])
  exact ⟨h.2.1, h.2.2.2⟩

section RunLemmas

/-- Whether an `Except` computation succeeded. -/
def exceptOk {e a : Type} : Except e a → Bool
  | .ok _ => true
  | .error _ => false

/-- The file paths a file-format run accumulates over a playlist segment:
one path per playlist with a non-empty fetched listing, empties skipped. -/
def filesAfter (fmt : Fmt) (dir : String) (tsf : Nat → String) :
    Nat → List (PlaylistInfo × List (Except String Page)) → List String → List String
  | _, [], files => files
  | i, (p, fetches) :: rest, files =>
      match getPlaylistTracks false fetches with
      | .error _ => files
      | .ok tracks =>
          if tracks.isEmpty then filesAfter fmt dir tsf (i + 1) rest files
          else filesAfter fmt dir tsf (i + 1) rest
            (files ++ [filePathOf dir p.name (tsf i) (fmtExt fmt)])

theorem runGo_cons_file (fmt : Fmt) (hfmt : fmt ≠ .discord) (dir wh : String)
    (tsf : Nat → String) (cf : Option Nat) (i : Nat) (p : PlaylistInfo)
    (f : List (Except String Page))
    (rest : List (PlaylistInfo × List (Except String Page))) (files : List String)
    (ns : NetState) (tracks : List PyTrack)
    (hcan : cancelledAt cf i = false)
    (hfetch : getPlaylistTracks false f = .ok tracks) :
    runGo fmt dir wh tsf cf i ((p, f) :: rest) files ns =
      if tracks.isEmpty then runGo fmt dir wh tsf cf (i + 1) rest files ns
      else runGo fmt dir wh tsf cf (i + 1) rest
        (files ++ [filePathOf dir p.name (tsf i) (fmtExt fmt)]) ns := by
  cases fmt with
  | discord => exact absurd rfl hfmt
  | csv => simp only [runGo, hcan, hfetch, fmtExt, Bool.false_eq_true, if_false]
  | json => simp only [runGo, hcan, hfetch, fmtExt, Bool.false_eq_true, if_false]
  | txt => simp only [runGo, hcan, hfetch, fmtExt, Bool.false_eq_true, if_false]
  | md => simp only [runGo, hcan, hfetch, fmtExt, Bool.false_eq_true, if_false]

theorem filesAfter_cons (fmt : Fmt) (dir : String) (tsf : Nat → String) (i : Nat)
    (p : PlaylistInfo) (f : List (Except String Page))
    (rest : List (PlaylistInfo × List (Except String Page))) (files : List String)
    (tracks : List PyTrack) (hfetch : getPlaylistTracks false f = .ok tracks) :
    filesAfter fmt dir tsf i ((p, f) :: rest) files =
      if tracks.isEmpty then filesAfter fmt dir tsf (i + 1) rest files
      else filesAfter fmt dir tsf (i + 1) rest
        (files ++ [filePathOf dir p.name (tsf i) (fmtExt fmt)]) := by
  simp only [filesAfter, hfetch]

theorem runGo_completes (fmt : Fmt) (hfmt : fmt ≠ .discord) (dir wh : String)
    (tsf : Nat → String) :
    ∀ (pls : List (PlaylistInfo × List (Except String Page))) (i : Nat)
      (files : List String) (ns : NetState),
      (∀ pf ∈ pls, exceptOk (getPlaylistTracks false pf.2) = true) →
      runGo fmt dir wh tsf none i pls files ns =
        (.completed (filesAfter fmt dir tsf i pls files), ns.posted) := by
  intro pls
  induction pls with
  | nil => intro i files ns _; rfl
  | cons pf rest ih =>
      intro i files ns hok
      obtain ⟨p, f⟩ := pf
      have hhead := hok (p, f) (List.mem_cons_self _ _)
      have htail : ∀ x ∈ rest, exceptOk (getPlaylistTracks false x.2) = true :=
        fun x hx => hok x (List.mem_cons_of_mem _ hx)
      cases hfetch : getPlaylistTracks false f with
      | error e => rw [hfetch] at hhead; exact absurd hhead (by simp [exceptOk])
      | ok tracks =>
          rw [runGo_cons_file fmt hfmt dir wh tsf none i p f rest files ns tracks rfl
              hfetch,
            filesAfter_cons fmt dir tsf i p f rest files tracks hfetch]
          by_cases hemp : tracks.isEmpty = true
          · rw [if_pos hemp, if_pos hemp]
            exact ih (i + 1) files ns htail
          · rw [if_neg hemp, if_neg hemp]
            exact ih (i + 1) _ ns htail

theorem runGo_cancelled_at (fmt : Fmt) (hfmt : fmt ≠ .discord) (dir wh : String)
    (tsf : Nat → String) :
    ∀ (k : Nat) (pls : List (PlaylistInfo × List (Except String Page))) (i : Nat)
      (files : List String) (ns : NetState),
      k < pls.length →
      (∀ pf ∈ pls.take k, exceptOk (getPlaylistTracks false pf.2) = true) →
      runGo fmt dir wh tsf (some (i + k)) i pls files ns =
        (.cancelled (filesAfter fmt dir tsf i (pls.take k) files), ns.posted) := by
  intro k
  induction k with
  | zero =>
      intro pls i files ns hlen _
      cases pls with
      | nil => exact absurd hlen (by simp)
      | cons pf rest =>
          obtain ⟨p, f⟩ := pf
          have hcan : cancelledAt (some (i + 0)) i = true := by simp [cancelledAt]
          simp only [runGo, hcan, if_true, List.take_zero, filesAfter]
  | succ k ih =>
      intro pls i files ns hlen hok
      cases pls with
      | nil => exact absurd hlen (by simp)
      | cons pf rest =>
          obtain ⟨p, f⟩ := pf
          have hcan : cancelledAt (some (i + (k + 1))) i = false := by
            simp only [cancelledAt, decide_eq_false_iff_not]
            omega
          have hhead := hok (p, f) (by simp)
          have htail : ∀ x ∈ rest.take k, exceptOk (getPlaylistTracks false x.2) = true := by
            intro x hx
            exact hok x (by simp [hx])
          have hlen' : k < rest.length := by simpa using hlen
          cases hfetch : getPlaylistTracks false f with
          | error e => rw [hfetch] at hhead; exact absurd hhead (by simp [exceptOk])
          | ok tracks =>
              rw [List.take_succ_cons,
                runGo_cons_file fmt hfmt dir wh tsf (some (i + (k + 1))) i p f rest files
                  ns tracks hcan hfetch,
                filesAfter_cons fmt dir tsf i p f (rest.take k) files tracks hfetch]
              have hshift : i + (k + 1) = (i + 1) + k := by omega
              by_cases hemp : tracks.isEmpty = true
              · rw [if_pos hemp, if_pos hemp, hshift]
                exact ih rest (i + 1) files ns hlen' htail
              · rw [if_neg hemp, if_neg hemp, hshift]
                exact ih rest (i + 1) _ ns hlen' htail

end RunLemmas

/-- CLAIM C4 (confirmed): a run whose cancellation flag becomes true at the
playlist boundary after `k` playlists (with `k` among 1..total-1, all earlier
fetches succeeding, file format) terminates in the Cancelled state — the early
`return` at lines 539-541, which emits no error — and the worker's
`exported_files` at that point are exactly the files a completed run over the
first `k` playlists would have produced: nothing from the remaining playlists,
success-shaped partial output rather than an error. -/
theorem cancellation_keeps_partial_files (inp : RunInput) (k : Nat)
    (hc : inp.cancelFrom = some k) (hk0 : 0 < k) (hk : k < inp.playlists.length)
    (hfmt : inp.fmt ≠ .discord)
    (hfetch : ∀ pf ∈ inp.playlists.take k,
      exceptOk (getPlaylistTracks false pf.2) = true) :
    ∃ fs, (runWorker inp).1 = .cancelled fs ∧
      (runWorker { inp with playlists := inp.playlists.take k,
                            cancelFrom := none }).1 = .completed fs := by
  refine ⟨filesAfter inp.fmt inp.dir inp.tsf 0 (inp.playlists.take k) [], ?_, ?_⟩
  · unfold runWorker
    rw [hc, show k = 0 + k from (Nat.zero_add k).symm]
    rw [runGo_cancelled_at inp.fmt hfmt inp.dir inp.webhookUrl inp.tsf k
      inp.playlists 0 [] ⟨inp.statuses, []⟩ (by simpa using hk) (by simpa using hfetch)]
    simp
  · unfold runWorker
    show (runGo inp.fmt inp.dir inp.webhookUrl inp.tsf none 0 (inp.playlists.take k)
      [] ⟨inp.statuses, []⟩).1 = _
    rw [runGo_completes inp.fmt hfmt inp.dir inp.webhookUrl inp.tsf
      (inp.playlists.take k) 0 [] ⟨inp.statuses, []⟩ hfetch]

/-- Input for the cancellation scenario: three CSV playlists, flag set at the
boundary after the first. -/
def cancelInp : RunInput :=
  ⟨.csv,
   [(⟨"a", "One", 1, "o", ""⟩, [.ok ⟨[mkItem (.vDict [("name", .vStr "S1")])], false⟩]),
    (⟨"b", "Two", 1, "o", ""⟩, [.ok ⟨[mkItem (.vDict [("name", .vStr "S2")])], false⟩]),
    (⟨"c", "Three", 1, "o", ""⟩, [.ok ⟨[mkItem (.vDict [("name", .vStr "S3")])], false⟩])],
   "out", "", fun _ => "20240101_000000", [], some 1⟩

/-- CLAIM C4 (witness): cancelling the three-playlist run after one playlist
yields the Cancelled outcome holding exactly the one file already written. -/
theorem cancellation_keeps_partial_files_witness :
    (runWorker cancelInp).1 = .cancelled ["out/One_20240101_000000.csv"] := by
  obtain ⟨fs, h1, h2⟩ := cancellation_keeps_partial_files cancelInp 1 rfl
    (by decide) (by decide) (by decide) (by decide)
  have hval : (runWorker { cancelInp with
                            playlists := cancelInp.playlists.take 1,
                            cancelFrom := none }).1 =
      .completed ["out/One_20240101_000000.csv"] := rfl
  rw [hval] at h2
  cases h2
  exact h1

section DiscordLemmas

theorem discordPosts_all_ok (msgs : List String) :
    ∀ ns : NetState, (∀ s ∈ ns.statuses, s = 200 ∨ s = 204) →
    ∃ ns', discordPosts false msgs ns = (none, ns') ∧
      (∀ s ∈ ns'.statuses, s = 200 ∨ s = 204) := by
  induction msgs with
  | nil => intro ns h; exact ⟨ns, rfl, h⟩
  | cons m rest ih =>
      intro ns h
      rcases hns : ns.statuses with _ | ⟨s, restSt⟩
      · have hstep : discordPosts false (m :: rest) ns =
            discordPosts false rest { ns with posted := ns.posted ++ [m] } := by
          simp [discordPosts, doPost, hns]
        rw [hstep]
        exact ih _ (by simp [hns])
      · have hs := h s (by rw [hns]; exact List.mem_cons_self _ _)
        have hcond : (decide (s = 200) || decide (s = 204)) = true := by
          rcases hs with rfl | rfl <;> decide
        have hstep : discordPosts false (m :: rest) ns =
            discordPosts false rest ⟨restSt, ns.posted ++ [m]⟩ := by
          simp [discordPosts, doPost, hns, hcond]
        rw [hstep]
        refine ih _ ?_
        intro x hx
        exact h x (by rw [hns]; exact List.mem_cons_of_mem _ hx)

theorem runGo_discord_all_ok (dir wh : String) (tsf : Nat → String) (hwh : wh ≠ "") :
    ∀ (pls : List (PlaylistInfo × List (Except String Page))) (i : Nat)
      (files : List String) (ns : NetState),
      (∀ pf ∈ pls, exceptOk (getPlaylistTracks false pf.2) = true) →
      (∀ s ∈ ns.statuses, s = 200 ∨ s = 204) →
      ∃ posted, runGo .discord dir wh tsf none i pls files ns =
        (.completed files, posted) := by
  intro pls
  induction pls with
  | nil => intro i files ns _ _; exact ⟨ns.posted, rfl⟩
  | cons pf rest ih =>
      intro i files ns hok hstat
      obtain ⟨p, f⟩ := pf
      have hhead := hok (p, f) (List.mem_cons_self _ _)
      have htail : ∀ x ∈ rest, exceptOk (getPlaylistTracks false x.2) = true :=
        fun x hx => hok x (List.mem_cons_of_mem _ hx)
      cases hfetch : getPlaylistTracks false f with
      | error e => rw [hfetch] at hhead; exact absurd hhead (by simp [exceptOk])
      | ok tracks =>
          by_cases hemp : tracks.isEmpty = true
          · have hstep : runGo .discord dir wh tsf none i ((p, f) :: rest) files ns =
                runGo .discord dir wh tsf none (i + 1) rest files ns := by
              simp [runGo, cancelledAt, hfetch, hemp]
            rw [hstep]
            exact ih (i + 1) files ns htail hstat
          · obtain ⟨ns', hp, hp2⟩ :=
              discordPosts_all_ok (discordMessages p tracks) ns hstat
            have hexp : exportToDiscord false wh p tracks ns = (none, ns') := by
              simp [exportToDiscord, hwh, hp]
            have hstep : runGo .discord dir wh tsf none i ((p, f) :: rest) files ns =
                runGo .discord dir wh tsf none (i + 1) rest files ns' := by
              simp [runGo, cancelledAt, hfetch, hemp, hexp]
            rw [hstep]
            exact ih (i + 1) files ns' htail hp2

theorem discordPosts_first_bad :
    ∀ (goods : List Nat) (msgs : List String) (st : Nat) (restSt : List Nat)
      (posted : List String),
      (∀ s ∈ goods, s = 200 ∨ s = 204) → ¬(st = 200 ∨ st = 204) →
      goods.length < msgs.length →
      ∃ ns', discordPosts false msgs ⟨goods ++ st :: restSt, posted⟩ =
        (some ("Failed to send to Discord: " ++ toString st), ns') := by
  intro goods
  induction goods with
  | nil =>
      intro msgs st restSt posted _ hbad hlen
      cases msgs with
      | nil => exact absurd hlen (by simp)
      | cons m ms =>
          have h1 : st ≠ 200 := fun h => hbad (Or.inl h)
          have h2 : st ≠ 204 := fun h => hbad (Or.inr h)
          refine ⟨⟨restSt, posted ++ [m]⟩, ?_⟩
          simp [discordPosts, doPost, h1, h2]
  | cons g gs ih =>
      intro msgs st restSt posted hgood hbad hlen
      cases msgs with
      | nil => exact absurd hlen (by simp)
      | cons m ms =>
          have hg := hgood g (List.mem_cons_self _ _)
          have hcond : (decide (g = 200) || decide (g = 204)) = true := by
            rcases hg with rfl | rfl <;> decide
          have hstep : discordPosts false (m :: ms)
              ⟨(g :: gs) ++ st :: restSt, posted⟩ =
              discordPosts false ms ⟨gs ++ st :: restSt, posted ++ [m]⟩ := by
            simp [discordPosts, doPost, hcond]
          rw [hstep]
          exact ih ms st restSt (posted ++ [m])
            (fun x hx => hgood x (List.mem_cons_of_mem _ hx)) hbad
            (by simpa using hlen)

theorem runGo_discord_fail_step (dir wh : String) (tsf : Nat → String) (i : Nat)
    (p : PlaylistInfo) (f : List (Except String Page))
    (rest : List (PlaylistInfo × List (Except String Page))) (files : List String)
    (ns : NetState) (tracks : List PyTrack) (e : String) (ns' : NetState)
    (hfetch : getPlaylistTracks false f = .ok tracks)
    (hemp : tracks.isEmpty = false)
    (hexp : exportToDiscord false wh p tracks ns = (some e, ns')) :
    runGo .discord dir wh tsf none i ((p, f) :: rest) files ns =
      (.failed e files, ns'.posted) := by
  simp [runGo, cancelledAt, hfetch, hemp, hexp]

end DiscordLemmas

/-- CLAIM C10 (confirmed): a webhook-format run that processes all its
playlists without cancellation and whose posts all succeed terminates by
emitting the completion signal with an *empty* file-path list — the Discord
branch of the loop (line 554-555) appends nothing to `exported_files`. -/
theorem discord_run_emits_empty_file_list (inp : RunInput)
    (hfmt : inp.fmt = .discord) (hcf : inp.cancelFrom = none)
    (hwh : inp.webhookUrl ≠ "")
    (hfetch : ∀ pf ∈ inp.playlists, exceptOk (getPlaylistTracks false pf.2) = true)
    (hstat : ∀ s ∈ inp.statuses, s = 200 ∨ s = 204) :
    ∃ posted, runWorker inp = (.completed [], posted) := by
  unfold runWorker
  rw [hfmt, hcf]
  exact runGo_discord_all_ok inp.dir inp.webhookUrl inp.tsf hwh inp.playlists 0 []
    ⟨inp.statuses, []⟩ hfetch hstat

/-- Input for the successful two-playlist Discord run. -/
def discordOkInp : RunInput :=
  ⟨.discord,
   [(⟨"id1", "P1", 1, "o", ""⟩,
     [.ok ⟨[mkItem (.vDict [("name", .vStr "S1")])], false⟩]),
    (⟨"id2", "P2", 1, "o2", ""⟩,
     [.ok ⟨[mkItem (.vDict [("name", .vStr "S2")])], false⟩])],
   "out", "w", fun _ => "ts", [200, 204], none⟩

/-- CLAIM C10 (witness): the concrete successful Discord run completes with an
empty exported-files list. -/
theorem discord_run_emits_empty_file_list_witness :
    (runWorker discordOkInp).1 = .completed [] := by
  obtain ⟨posted, h⟩ := discord_run_emits_empty_file_list discordOkInp rfl rfl
    (by decide) (by decide) (by decide)
  rw [h]

/-- First playlist of the failing Discord run. -/
def failP1 : PlaylistInfo := ⟨"id1", "P1", 1, "o", ""⟩

/-- Second (sibling) playlist of the failing Discord run. -/
def failP2 : PlaylistInfo := ⟨"id2", "P2", 1, "o2", ""⟩

/-- Normalized track of the first failing-run playlist. -/
def failT1 : PyTrack :=
  ⟨.vStr "S1", "Unknown Artist", .vStr "Unknown Album", .vInt 0, .vStr rootUrl⟩

/-- Normalized track of the second failing-run playlist. -/
def failT2 : PyTrack :=
  ⟨.vStr "S2", "Unknown Artist", .vStr "Unknown Album", .vInt 0, .vStr rootUrl⟩

/-- Two-playlist Discord run whose second post is answered with status 500. -/
def failInp : RunInput :=
  ⟨.discord,
   [(failP1, [.ok ⟨[mkItem (.vDict [("name", .vStr "S1")])], false⟩]),
    (failP2, [.ok ⟨[mkItem (.vDict [("name", .vStr "S2")])], false⟩])],
   "out", "w", fun _ => "ts", [200, 500], none⟩

/-- The same run with every post succeeding. -/
def failInpAllOk : RunInput :=
  ⟨.discord,
   [(failP1, [.ok ⟨[mkItem (.vDict [("name", .vStr "S1")])], false⟩]),
    (failP2, [.ok ⟨[mkItem (.vDict [("name", .vStr "S2")])], false⟩])],
   "out", "w", fun _ => "ts", [], none⟩

/-- CLAIM C8 (counterexample): when the second post of the first playlist gets
status 500, the whole run fails with that status — only the first playlist's
messages were ever posted, and the sibling playlist's export is abandoned,
although the same run with successful posts would have posted both playlists'
messages.  This contradicts the claim that a non-success status does not abort
the remaining sibling playlists. -/
theorem webhook_failure_aborts_siblings :
    (runWorker failInp).1 = .failed "Failed to send to Discord: 500" [] ∧
    (runWorker failInp).2 = discordMessages failP1 [failT1] ∧
    (runWorker failInpAllOk).1 = .completed [] ∧
    (runWorker failInpAllOk).2 =
      discordMessages failP1 [failT1] ++ discordMessages failP2 [failT2] :=
  ⟨rfl, rfl, rfl, rfl⟩

/-- CLAIM C8 (amended): a non-success HTTP status (other than 200/204) on any
message post makes `export_to_discord` raise `Failed to send to Discord:
<status>` (first conjunct), and the run loop turns that exception into the
run-level Failed outcome on the spot, abandoning every remaining sibling
playlist in the same run (second conjunct); already-completed exports keep
their results.  The failure is fatal to the whole run, not only to the one
playlist's export. -/
theorem webhook_failure_fatal_to_run :
    (∀ (wh : String) (p : PlaylistInfo) (tracks : List PyTrack) (goods : List Nat)
       (st : Nat) (restSt : List Nat) (posted : List String),
      wh ≠ "" → (∀ s ∈ goods, s = 200 ∨ s = 204) → ¬(st = 200 ∨ st = 204) →
      goods.length < (discordMessages p tracks).length →
      ∃ ns', exportToDiscord false wh p tracks ⟨goods ++ st :: restSt, posted⟩ =
        (some ("Failed to send to Discord: " ++ toString st), ns')) ∧
    (∀ (dir wh : String) (tsf : Nat → String) (i : Nat) (p : PlaylistInfo)
       (f : List (Except String Page))
       (rest : List (PlaylistInfo × List (Except String Page)))
       (files : List String) (ns : NetState) (tracks : List PyTrack) (e : String)
       (ns' : NetState),
      getPlaylistTracks false f = .ok tracks → tracks.isEmpty = false →
      exportToDiscord false wh p tracks ns = (some e, ns') →
      runGo .discord dir wh tsf none i ((p, f) :: rest) files ns =
        (.failed e files, ns'.posted)) := by
  constructor
  · intro wh p tracks goods st restSt posted hwh hgood hbad hlen
    obtain ⟨ns', hns⟩ := discordPosts_first_bad goods (discordMessages p tracks) st
      restSt posted hgood hbad hlen
    exact ⟨ns', by simp [exportToDiscord, hwh, hns]⟩
  · intro dir wh tsf i p f rest files ns tracks e ns' hfetch hemp hexp
    exact runGo_discord_fail_step dir wh tsf i p f rest files ns tracks e ns'
      hfetch hemp hexp

/-- CLAIM C8 (witness): a first post answered with 500 fails the run at once;
nothing of the sibling playlist is posted. -/
theorem webhook_failure_fatal_to_run_witness :
    runGo .discord "out" "w" (fun _ => "ts") none 0
      [(failP1, [.ok ⟨[mkItem (.vDict [("name", .vStr "S1")])], false⟩]),
       (failP2, [.ok ⟨[mkItem (.vDict [("name", .vStr "S2")])], false⟩])]
      [] ⟨[500], []⟩ =
      (.failed "Failed to send to Discord: 500" [], [discordHeader failP1 1]) :=
  webhook_failure_fatal_to_run.2 "out" "w" (fun _ => "ts") 0 failP1
    [.ok ⟨[mkItem (.vDict [("name", .vStr "S1")])], false⟩]
    [(failP2, [.ok ⟨[mkItem (.vDict [("name", .vStr "S2")])], false⟩])]
    [] ⟨[500], []⟩ [failT1] "Failed to send to Discord: 500"
    ⟨[], [discordHeader failP1 1]⟩ rfl rfl rfl

end SpotifyExporter
